import Mathlib

/-!
Verification of the RevenuePulse analytics pipeline (demand forecasting,
pricing recommendation, what-if simulation, KPI aggregation).

The embedding models JavaScript numbers as rationals (ℚ) and calendar
dates as integer day indices (days since 1970-01-01 UTC, a Thursday).
Scenario start/end dates are taken at UTC midnight, so a difference of
one calendar day is exactly 86400000 milliseconds.

One JavaScript-semantics point is modelled explicitly: in
RevenuePulseModel.predictDemand the accumulator is declared
const eventsImpact = 1.0 and is then reassigned (eventsImpact += ...)
inside events.forEach.  In JavaScript an assignment to a const binding
throws a TypeError, which the surrounding try/catch rethrows, so the
whole call fails whenever any forecast day has a matching market record
containing an event whose expectedImpact is high, medium or low.
The embedding returns Except.error for exactly those inputs.
-/

namespace RevenuePulse

/-- JavaScript Math.round on a nonnegative-or-any rational: floor (q + 1/2).
(Math.round rounds half-up toward positive infinity, which is floor of q + 1/2.) -/
def jsRound (q : ℚ) : ℤ := ⌊q + 1/2⌋

/-- JavaScript Date#getDay for a day index (0 = Sunday ... 6 = Saturday).
Day 0 (1970-01-01) was a Thursday, hence the +4 offset. -/
def jsGetDay (z : ℤ) : ℤ := (z + 4).emod 7

/-- JavaScript Date#getMonth (0 = January ... 11 = December) for a day index,
computed by the standard civil-from-days conversion for the proleptic
Gregorian calendar. -/
def jsGetMonth (z : ℤ) : ℤ :=
  let zz := z + 719468
  let era := zz.ediv 146097
  let doe := zz - era * 146097
  let yoe := (doe - doe.ediv 1460 + doe.ediv 36524 - doe.ediv 146096).ediv 365
  let doy := doe - (365 * yoe + yoe.ediv 4 - yoe.ediv 100)
  let mp := (5 * doy + 2).ediv 153
  if mp < 10 then mp + 2 else mp - 10

/-- One RevenueData row (fields read by the pipeline), date as a day index. -/
structure RevenueRecord where
  date : ℤ
  roomRevenue : ℚ
  foodBeverageRevenue : ℚ
  spaRevenue : ℚ
  retailRevenue : ℚ
  otherRevenue : ℚ
  totalRevenue : ℚ
  occupancyRate : ℚ
  adr : ℚ
  revPAR : ℚ
deriving DecidableEq, Repr

/-- One event inside a MarketData row; expectedImpact is the raw string
(high, medium, low, or anything else). -/
structure MarketEvent where
  expectedImpact : String
deriving DecidableEq, Repr

/-- One MarketData row (fields read by the pipeline), date as a day index. -/
structure MarketRecord where
  date : ℤ
  events : List MarketEvent
deriving DecidableEq, Repr

/-- The revenueBreakdown object returned by calculateKPIs. -/
structure RevenueBreakdown where
  room : ℚ
  foodBeverage : ℚ
  spa : ℚ
  retail : ℚ
  other : ℚ
deriving DecidableEq, Repr

/-- The object returned by calculateKPIs. -/
structure KPIs where
  totalRevenue : ℚ
  averageOccupancy : ℚ
  averageADR : ℚ
  averageRevPAR : ℚ
  revenueBreakdown : RevenueBreakdown
deriving DecidableEq, Repr

/-- RevenuePulseModel.calculateKPIs, with the record-store result for the
requested hotel and date range passed in as the list of revenue rows.
An empty list returns the explicit all-zero structure; otherwise one pass
sums every field and divides the occupancy/ADR/RevPAR sums by the count. -/
def calculateKPIs (revenueData : List RevenueRecord) : KPIs :=
  if revenueData.length = 0 then
    { totalRevenue := 0
      averageOccupancy := 0
      averageADR := 0
      averageRevPAR := 0
      revenueBreakdown := { room := 0, foodBeverage := 0, spa := 0, retail := 0, other := 0 } }
  else
    let totalRevenue := (revenueData.map (·.totalRevenue)).sum
    let totalRoomRevenue := (revenueData.map (·.roomRevenue)).sum
    let totalFBRevenue := (revenueData.map (·.foodBeverageRevenue)).sum
    let totalSpaRevenue := (revenueData.map (·.spaRevenue)).sum
    let totalRetailRevenue := (revenueData.map (·.retailRevenue)).sum
    let totalOtherRevenue := (revenueData.map (·.otherRevenue)).sum
    let totalOccupancy := (revenueData.map (·.occupancyRate)).sum
    let totalADR := (revenueData.map (·.adr)).sum
    let totalRevPAR := (revenueData.map (·.revPAR)).sum
    let dataPoints : ℚ := revenueData.length
    { totalRevenue := totalRevenue
      averageOccupancy := totalOccupancy / dataPoints
      averageADR := totalADR / dataPoints
      averageRevPAR := totalRevPAR / dataPoints
      revenueBreakdown :=
        { room := totalRoomRevenue
          foodBeverage := totalFBRevenue
          spa := totalSpaRevenue
          retail := totalRetailRevenue
          other := totalOtherRevenue } }

/-- The factors object attached to every demand prediction. -/
structure PredictionFactors where
  weekendFactor : ℚ
  seasonalityFactor : ℚ
  eventsImpact : ℚ
deriving DecidableEq, Repr

/-- One element of the predictions array built by predictDemand. -/
structure DemandPrediction where
  date : ℤ
  predictedOccupancy : ℚ
  predictedADR : ℚ
  predictedRevPAR : ℚ
  factors : PredictionFactors
deriving DecidableEq, Repr

/-- The envelope returned by predictDemand (the hotelId passthrough string
is elided; it does not affect any computed field). -/
structure DemandForecast where
  targetDate : ℤ
  daysAhead : ℕ
  predictions : List DemandPrediction
deriving DecidableEq, Repr

/-- weekendFactor: 1.2 when getDay is 0 (Sunday), 5 (Friday) or 6 (Saturday). -/
def weekendFactor (d : ℤ) : ℚ :=
  if jsGetDay d = 0 ∨ jsGetDay d = 5 ∨ jsGetDay d = 6 then 12/10 else 1

/-- seasonalityFactor from the forecast day month: 1.3 for months 5-8
(June-September), 1.2 for months 11, 0 and 1 (December-February),
1.1 for months 2-4 (March-May), else 0.9 (fall). -/
def seasonalityFactor (d : ℤ) : ℚ :=
  let month := jsGetMonth d
  if 5 ≤ month ∧ month ≤ 8 then 13/10
  else if 11 ≤ month ∨ month ≤ 1 then 12/10
  else if 2 ≤ month ∧ month ≤ 4 then 11/10
  else 9/10

/-- An event whose expectedImpact is high, medium or low reaches one of the
three branches that assign to the const binding eventsImpact, and therefore
throws a TypeError at runtime; any other impact string falls through all
three branches and assigns nothing. -/
def eventAssigns (e : MarketEvent) : Bool :=
  e.expectedImpact = "high" ∨ e.expectedImpact = "medium" ∨ e.expectedImpact = "low"

/-- Whether the loop iteration for day d throws: there is a matching market
record (first record with the same calendar date), its events list is
nonempty, and some event reaches an assignment to the const eventsImpact. -/
def dayThrows (marketData : List MarketRecord) (d : ℤ) : Bool :=
  match marketData.find? (fun r => r.date = d) with
  | some r => r.events.any eventAssigns
  | none => false

/-- avgOccupancy computed by predictDemand over the fetched revenue rows. -/
def avgOccupancy (revenueData : List RevenueRecord) : ℚ :=
  if revenueData.length > 0 then
    (revenueData.map (·.occupancyRate)).sum / revenueData.length
  else 0

/-- baseADR computed by predictDemand over the fetched revenue rows
(default 100 when there are none). -/
def baseADR (revenueData : List RevenueRecord) : ℚ :=
  if revenueData.length > 0 then
    (revenueData.map (·.adr)).sum / revenueData.length
  else 100

/-- One loop iteration of predictDemand for forecast day d, in the only case
where the iteration completes (no assigning event, so eventsImpact keeps its
initial value 1.0). -/
def predictOne (avgOcc adr : ℚ) (d : ℤ) : DemandPrediction :=
  let eventsImpact : ℚ := 1
  let wf := weekendFactor d
  let sf := seasonalityFactor d
  let predictedOccupancy := min 100 (max 0 (avgOcc * wf * sf * eventsImpact))
  let occupancyADRFactor : ℚ :=
    if predictedOccupancy > 80 then 13/10
    else if predictedOccupancy > 60 then 11/10
    else if predictedOccupancy > 40 then 9/10
    else 8/10
  let predictedADR := adr * occupancyADRFactor * sf
  { date := d
    predictedOccupancy := predictedOccupancy
    predictedADR := predictedADR
    predictedRevPAR := predictedOccupancy * predictedADR / 100
    factors := { weekendFactor := wf, seasonalityFactor := sf, eventsImpact := eventsImpact } }

/-- RevenuePulseModel.predictDemand, with the record-store results passed in.
If any forecast day has a matching market record with an event of impact
high, medium or low, the iteration for that day throws the TypeError
described in the file header and the whole call fails; otherwise one
prediction per day in [0, daysAhead) is produced with eventsImpact 1.0. -/
def predictDemand (revenueData : List RevenueRecord) (marketData : List MarketRecord)
    (targetDate : ℤ) (daysAhead : ℕ) : Except String DemandForecast :=
  if (List.range daysAhead).any (fun i : ℕ => dayThrows marketData (targetDate + (i : ℤ))) then
    Except.error "TypeError: Assignment to constant variable."
  else
    Except.ok
      { targetDate := targetDate
        daysAhead := daysAhead
        predictions := (List.range daysAhead).map
          (fun i : ℕ => predictOne (avgOccupancy revenueData) (baseADR revenueData)
            (targetDate + (i : ℤ))) }

/-- One entry of the hard-coded room-type table in recommendPricing. -/
structure RoomType where
  name : String
  basePrice : ℚ
deriving DecidableEq, Repr

/-- The fixed 4-entry room-type table. -/
def roomTypes : List RoomType :=
  [{ name := "Standard", basePrice := 100 },
   { name := "Deluxe", basePrice := 150 },
   { name := "Suite", basePrice := 250 },
   { name := "Executive Suite", basePrice := 350 }]

/-- The priceRange object of a room recommendation (integer prices,
as produced by Math.round). -/
structure PriceRange where
  min : ℤ
  max : ℤ
deriving DecidableEq, Repr

/-- One element of a daily recommendation roomTypes array. -/
structure RoomRecommendation where
  roomType : String
  recommendedPrice : ℤ
  priceRange : PriceRange
  expectedRevenue : ℚ
deriving DecidableEq, Repr

/-- One element of the recommendations array built by recommendPricing. -/
structure DailyRecommendation where
  date : ℤ
  occupancyForecast : ℚ
  roomTypes : List RoomRecommendation
deriving DecidableEq, Repr

/-- The envelope returned by recommendPricing (hotelId passthrough elided). -/
structure PricingResult where
  targetDate : ℤ
  daysAhead : ℕ
  recommendations : List DailyRecommendation
deriving DecidableEq, Repr

/-- roomTypeFactor: per-name premium multiplier used by recommendPricing. -/
def roomTypeFactor (name : String) : ℚ :=
  if name = "Standard" then 1
  else if name = "Deluxe" then 11/10
  else if name = "Suite" then 12/10
  else 13/10

/-- demandFactor from predicted occupancy, used by recommendPricing. -/
def demandFactor (predictedOccupancy : ℚ) : ℚ :=
  if predictedOccupancy > 80 then 14/10
  else if predictedOccupancy > 60 then 12/10
  else if predictedOccupancy > 40 then 1
  else 9/10

/-- The inner loop body of recommendPricing for one prediction and one
room-type table entry. -/
def recommendRoom (p : DemandPrediction) (rt : RoomType) : RoomRecommendation :=
  let price := jsRound (rt.basePrice * demandFactor p.predictedOccupancy *
    roomTypeFactor rt.name * p.factors.seasonalityFactor)
  { roomType := rt.name
    recommendedPrice := price
    priceRange := { min := jsRound ((price : ℚ) * (9/10)), max := jsRound ((price : ℚ) * (11/10)) }
    expectedRevenue := (price : ℚ) * (p.predictedOccupancy / 100) }

/-- RevenuePulseModel.recommendPricing, applied to an already-computed
demand forecast (the hotel-exists check and the forecast computation happen
upstream; a missing hotel throws before any recommendation is built). -/
def recommendPricing (forecast : DemandForecast) : PricingResult :=
  { targetDate := forecast.targetDate
    daysAhead := forecast.daysAhead
    recommendations := forecast.predictions.map (fun p =>
      { date := p.date
        occupancyForecast := p.predictedOccupancy
        roomTypes := roomTypes.map (recommendRoom p) }) }

/-- A what-if scenario.  Dates are day indices at UTC midnight.
marketingSpend is Option-valued: none models a scenario object with the
field omitted (undefined in JavaScript). -/
structure Scenario where
  startDate : ℤ
  endDate : ℤ
  priceChange : ℚ
  marketingSpend : Option ℚ
  competitorPriceChange : ℚ
deriving DecidableEq, Repr

/-- Addition of possibly-NaN numbers: none models NaN, which propagates
through +. -/
def optAdd : Option ℚ → Option ℚ → Option ℚ
  | some a, some b => some (a + b)
  | _, _ => none

/-- marketingImpact = Math.min(0.1, (marketingSpend / 1000) * 0.02).
When marketingSpend is undefined the division yields NaN and Math.min
propagates it, modelled as none. -/
def marketingImpact (marketingSpend : Option ℚ) : Option ℚ :=
  marketingSpend.map (fun m => min (1/10 : ℚ) (m / 1000 * (2/100)))

/-- occupancyChange = demandChangeFromPrice + marketingImpact +
competitorImpact, with demandChangeFromPrice = priceChange * (-0.5) and
competitorImpact = competitorPriceChange * 0.3.  NaN (none) from an
omitted marketingSpend propagates through the sum. -/
def occupancyChange (sc : Scenario) : Option ℚ :=
  (marketingImpact sc.marketingSpend).map
    (fun mi => sc.priceChange * (-(1/2)) + mi + sc.competitorPriceChange * (3/10))

/-- The baseline triple recorded for one simulated day. -/
structure BaselineMetrics where
  occupancy : ℚ
  adr : ℚ
  revPAR : ℚ
deriving DecidableEq, Repr

/-- The simulated (or delta) triple recorded for one simulated day; the
occupancy and RevPAR components are NaN (none) when marketingSpend was
omitted, while the ADR component never depends on marketingSpend. -/
structure SimulatedMetrics where
  occupancy : Option ℚ
  adr : ℚ
  revPAR : Option ℚ
deriving DecidableEq, Repr

/-- One element of the dailyResults array built by runSimulation. -/
structure SimDay where
  date : ℤ
  baseline : BaselineMetrics
  simulated : SimulatedMetrics
  change : SimulatedMetrics
deriving DecidableEq, Repr

/-- The map body of runSimulation for one baseline prediction. -/
def simulateDay (sc : Scenario) (p : DemandPrediction) : SimDay :=
  let newOccupancy := (occupancyChange sc).map
    (fun c => min 100 (max 0 (p.predictedOccupancy * (1 + c))))
  let newADR := p.predictedADR * (1 + sc.priceChange / 100)
  let newRevPAR := newOccupancy.map (fun no => no * newADR / 100)
  { date := p.date
    baseline :=
      { occupancy := p.predictedOccupancy, adr := p.predictedADR, revPAR := p.predictedRevPAR }
    simulated := { occupancy := newOccupancy, adr := newADR, revPAR := newRevPAR }
    change :=
      { occupancy := newOccupancy.map (fun no => no - p.predictedOccupancy)
        adr := newADR - p.predictedADR
        revPAR := newRevPAR.map (fun nr => nr - p.predictedRevPAR) } }

/-- The summary object of a simulation result.  percentRevPARChange keeps
the ℚ convention q / 0 = 0 where JavaScript would produce a non-finite
value for a zero baseline (outside the verified properties). -/
structure SimSummary where
  baselineTotalRevPAR : ℚ
  simulatedTotalRevPAR : Option ℚ
  totalRevPARChange : Option ℚ
  percentRevPARChange : Option ℚ
  roi : Option ℚ
deriving DecidableEq, Repr

/-- The envelope returned by runSimulation (hotelId passthrough elided). -/
structure SimulationResult where
  scenario : Scenario
  summary : SimSummary
  dailyResults : List SimDay
deriving DecidableEq, Repr

/-- The day count runSimulation forwards to predictDemand:
Math.round((endDate - startDate) / 86400000) on millisecond timestamps;
with both dates at UTC midnight the difference is an exact number of days. -/
def simDays (sc : Scenario) : ℤ :=
  jsRound ((((sc.endDate - sc.startDate) * 86400000 : ℤ) : ℚ) / 86400000)

/-- RevenuePulseModel.runSimulation, with the record-store results passed
in.  The baseline forecast comes from predictDemand (so it fails on the
same inputs); the scenario impacts are then applied per day and summarised.
roi is null (none) unless marketingSpend is present and positive. -/
def runSimulation (revenueData : List RevenueRecord) (marketData : List MarketRecord)
    (sc : Scenario) : Except String SimulationResult :=
  match predictDemand revenueData marketData sc.startDate (simDays sc).toNat with
  | Except.error e => Except.error e
  | Except.ok baselineForecast =>
    let dailyResults := baselineForecast.predictions.map (simulateDay sc)
    let baselineTotalRevPAR := (baselineForecast.predictions.map (·.predictedRevPAR)).sum
    let simulatedTotalRevPAR := (dailyResults.map (·.simulated.revPAR)).foldl optAdd (some 0)
    let totalRevPARChange := simulatedTotalRevPAR.map (fun s => s - baselineTotalRevPAR)
    let percentRevPARChange := totalRevPARChange.map (fun t => t / baselineTotalRevPAR * 100)
    let roi :=
      match sc.marketingSpend with
      | some m => if m > 0 then totalRevPARChange.map (fun t => t / m * 100) else none
      | none => none
    Except.ok
      { scenario := sc
        summary :=
          { baselineTotalRevPAR := baselineTotalRevPAR
            simulatedTotalRevPAR := simulatedTotalRevPAR
            totalRevPARChange := totalRevPARChange
            percentRevPARChange := percentRevPARChange
            roi := roi }
        dailyResults := dailyResults }

/-! Concrete inputs used by the code-bug evaluations and the witnesses.
Day index 273 is 1970-10-01, a Thursday (weekday) in October, so
weekendFactor 273 = 1 and seasonalityFactor 273 = 9/10. -/

/-- A market-record list with one record on day 273 carrying a single
high-impact event. -/
def c1Market : List MarketRecord :=
  [{ date := 273, events := [{ expectedImpact := "high" }] }]

/-- One revenue row whose occupancyRate and adr are chosen so that the
baseline prediction for day 273 has predictedOccupancy = 70 and
predictedADR = 150 exactly: 700/9 * 9/10 = 70 and
5000/33 * 11/10 * 9/10 = 150. -/
def c2Revenue : List RevenueRecord :=
  [{ date := 200, roomRevenue := 0, foodBeverageRevenue := 0, spaRevenue := 0,
     retailRevenue := 0, otherRevenue := 0, totalRevenue := 0,
     occupancyRate := 700/9, adr := 5000/33, revPAR := 0 }]

/-- The scenario of end-to-end scenario 3: priceChange 10 percent,
marketingSpend 0, competitorPriceChange 0, one simulated day. -/
def c2Scenario : Scenario :=
  { startDate := 273, endDate := 274, priceChange := 10, marketingSpend := some 0,
    competitorPriceChange := 0 }

/-- A one-day forecast over no historical data (avgOccupancy 0, baseADR 100). -/
def demoForecast : DemandForecast :=
  { targetDate := 273, daysAhead := 1, predictions := [predictOne 0 100 273] }

/-- The one-day forecast over c2Revenue (occupancy 70, ADR 150). -/
def demoForecast2 : DemandForecast :=
  { targetDate := 273, daysAhead := 1, predictions := [predictOne (700/9) (5000/33) 273] }

/-- The first daily recommendation produced from demoForecast. -/
def demoDaily : DailyRecommendation :=
  { date := 273, occupancyForecast := (predictOne 0 100 273).predictedOccupancy,
    roomTypes := roomTypes.map (recommendRoom (predictOne 0 100 273)) }

/-- The Standard-room recommendation inside demoDaily. -/
def demoRoomRec : RoomRecommendation :=
  recommendRoom (predictOne 0 100 273) { name := "Standard", basePrice := 100 }

/-- A two-day scenario with a positive marketing spend. -/
def demoScenario : Scenario :=
  { startDate := 273, endDate := 275, priceChange := 0, marketingSpend := some 1000,
    competitorPriceChange := 0 }

/-- The simulation result for demoScenario over c2Revenue. -/
def demoSimResult : SimulationResult :=
  match runSimulation c2Revenue [] demoScenario with
  | Except.ok r => r
  | Except.error _ =>
    { scenario := demoScenario
      summary := { baselineTotalRevPAR := 0, simulatedTotalRevPAR := none,
                   totalRevPARChange := none, percentRevPARChange := none, roi := none }
      dailyResults := [] }

/-- A one-day scenario with marketingSpend omitted. -/
def demoScenario10 : Scenario :=
  { startDate := 273, endDate := 274, priceChange := 0, marketingSpend := none,
    competitorPriceChange := 0 }

/-- The simulation result for demoScenario10 over empty record stores. -/
def demoSimResult10 : SimulationResult :=
  match runSimulation [] [] demoScenario10 with
  | Except.ok r => r
  | Except.error _ =>
    { scenario := demoScenario10
      summary := { baselineTotalRevPAR := 0, simulatedTotalRevPAR := none,
                   totalRevPARChange := none, percentRevPARChange := none, roi := none }
      dailyResults := [] }

/-! Helper lemmas shared by the claim theorems. -/

/-- Any successful predictDemand call returns exactly the envelope built
from the per-day loop body. -/
theorem predictDemand_ok_shape {rev : List RevenueRecord} {mkt : List MarketRecord}
    {t : ℤ} {n : ℕ} {f : DemandForecast}
    (h : predictDemand rev mkt t n = Except.ok f) :
    f = { targetDate := t, daysAhead := n,
          predictions := (List.range n).map
            (fun i : ℕ => predictOne (avgOccupancy rev) (baseADR rev) (t + (i : ℤ))) } := by
  unfold predictDemand at h
  split at h
  · exact absurd h (by simp)
  · injection h with h
    exact h.symm

/-- The clamp in the loop body keeps predicted occupancy inside [0, 100]. -/
theorem predictOne_occupancy_bounds (a b : ℚ) (d : ℤ) :
    0 ≤ (predictOne a b d).predictedOccupancy ∧ (predictOne a b d).predictedOccupancy ≤ 100 :=
  ⟨le_min (by norm_num) (le_max_left _ _), min_le_left _ _⟩

/-- Math.round of a nonnegative number is nonnegative. -/
theorem jsRound_nonneg {q : ℚ} (h : 0 ≤ q) : 0 ≤ jsRound q := by
  unfold jsRound
  exact Int.le_floor.mpr (by push_cast; linarith)

/-- For a nonnegative integer price, rounding 90 percent of it does not
exceed the price. -/
theorem jsRound_ninety_le {p : ℤ} (h : 0 ≤ p) : jsRound ((p : ℚ) * (9/10)) ≤ p := by
  have hq : (0:ℚ) ≤ (p : ℚ) := by exact_mod_cast h
  have hlt : ⌊(p : ℚ) * (9/10) + 1/2⌋ < p + 1 :=
    Int.floor_lt.mpr (by push_cast; linarith)
  unfold jsRound
  omega

/-- For a nonnegative integer price, rounding 110 percent of it is at
least the price. -/
theorem le_jsRound_eleven {p : ℤ} (h : 0 ≤ p) : p ≤ jsRound ((p : ℚ) * (11/10)) := by
  have hq : (0:ℚ) ≤ (p : ℚ) := by exact_mod_cast h
  unfold jsRound
  exact Int.le_floor.mpr (by linarith)

/-- Every branch of demandFactor is positive. -/
theorem demandFactor_pos (q : ℚ) : 0 < demandFactor q := by
  unfold demandFactor
  split_ifs <;> norm_num

/-- Every branch of seasonalityFactor is positive. -/
theorem seasonalityFactor_pos (d : ℤ) : 0 < seasonalityFactor d := by
  unfold seasonalityFactor
  dsimp only
  split_ifs <;> norm_num

/-- Every branch of roomTypeFactor is positive. -/
theorem roomTypeFactor_pos (s : String) : 0 < roomTypeFactor s := by
  unfold roomTypeFactor
  split_ifs <;> norm_num

/-- Folding NaN-propagating addition over a list of genuine numbers from a
genuine accumulator yields a genuine number. -/
theorem foldl_optAdd_some (l : List (Option ℚ))
    (hl : ∀ x ∈ l, ∃ q : ℚ, x = some q) :
    ∀ a : ℚ, ∃ s : ℚ, l.foldl optAdd (some a) = some s := by
  induction l with
  | nil => exact fun a => ⟨a, rfl⟩
  | cons x xs ih =>
    intro a
    obtain ⟨q, rfl⟩ := hl x (List.mem_cons_self _ _)
    exact ih (fun y hy => hl y (List.mem_cons_of_mem _ hy)) (a + q)

/-- When marketingSpend is present, no NaN enters the per-day simulation,
so the simulated RevPAR of every day is a genuine number. -/
theorem simulateDay_revPAR_some {sc : Scenario} {m : ℚ}
    (hm : sc.marketingSpend = some m) (p : DemandPrediction) :
    ∃ q : ℚ, (simulateDay sc p).simulated.revPAR = some q := by
  unfold simulateDay occupancyChange marketingImpact
  rw [hm]
  exact ⟨_, rfl⟩

/-- The structural bounds of one room recommendation, given the
nonnegative inputs the pipeline always supplies. -/
theorem recommendRoom_bounds (p : DemandPrediction) (rt : RoomType)
    (hb : 0 ≤ rt.basePrice) (hsf : 0 ≤ p.factors.seasonalityFactor) :
    (recommendRoom p rt).priceRange.min =
      jsRound (((recommendRoom p rt).recommendedPrice : ℚ) * (9/10)) ∧
    (recommendRoom p rt).priceRange.max =
      jsRound (((recommendRoom p rt).recommendedPrice : ℚ) * (11/10)) ∧
    (recommendRoom p rt).priceRange.min ≤ (recommendRoom p rt).recommendedPrice ∧
    (recommendRoom p rt).recommendedPrice ≤ (recommendRoom p rt).priceRange.max := by
  have hprod : 0 ≤ rt.basePrice * demandFactor p.predictedOccupancy *
      roomTypeFactor rt.name * p.factors.seasonalityFactor :=
    mul_nonneg (mul_nonneg (mul_nonneg hb (demandFactor_pos _).le)
      (roomTypeFactor_pos _).le) hsf
  have hpr : 0 ≤ jsRound (rt.basePrice * demandFactor p.predictedOccupancy *
      roomTypeFactor rt.name * p.factors.seasonalityFactor) := jsRound_nonneg hprod
  exact ⟨rfl, rfl, jsRound_ninety_le hpr, le_jsRound_eleven hpr⟩

/-- predictDemand never throws when the market-record list is empty: no day
can have a matching record, so the const assignment is never reached. -/
theorem predictDemand_nil_market (rev : List RevenueRecord) (t : ℤ) (n : ℕ) :
    predictDemand rev [] t n = Except.ok
      { targetDate := t, daysAhead := n,
        predictions := (List.range n).map
          (fun i : ℕ => predictOne (avgOccupancy rev) (baseADR rev) (t + (i : ℤ))) } := by
  unfold predictDemand
  rw [if_neg]
  simp [dayThrows]

/-- The historical average occupancy over c2Revenue. -/
theorem avg_c2 : avgOccupancy c2Revenue = 700/9 := by
  simp [avgOccupancy, c2Revenue]

/-- The historical average ADR over c2Revenue. -/
theorem adr_c2 : baseADR c2Revenue = 5000/33 := by
  simp [baseADR, c2Revenue]

/-- Day 273 is a Thursday, so its weekend factor is 1. -/
theorem wf273 : weekendFactor 273 = 1 := by
  have h : jsGetDay 273 = 4 := by decide
  simp [weekendFactor, h]

/-- Day 273 is in October (month index 9), so its seasonality factor is 0.9. -/
theorem sf273 : seasonalityFactor 273 = 9/10 := by
  have h : jsGetMonth 273 = 9 := by decide
  simp [seasonalityFactor, h]

/-- The baseline prediction for day 273 over c2Revenue: occupancy 70,
ADR 150, RevPAR 105. -/
theorem p273 : predictOne (700/9) (5000/33) 273 =
    { date := 273, predictedOccupancy := 70, predictedADR := 150, predictedRevPAR := 105,
      factors := { weekendFactor := 1, seasonalityFactor := 9/10, eventsImpact := 1 } } := by
  unfold predictOne
  rw [wf273, sf273]
  dsimp only
  have hocc : min 100 (max 0 ((700:ℚ)/9 * 1 * (9/10) * 1)) = 70 := by
    rw [show (700:ℚ)/9 * 1 * (9/10) * 1 = 70 by norm_num]
    rw [max_eq_right (by norm_num : (0:ℚ) ≤ 70), min_eq_right (by norm_num : (70:ℚ) ≤ 100)]
  rw [hocc]
  norm_num

/-- c2Scenario spans exactly one day. -/
theorem simdays_c2 : (simDays c2Scenario).toNat = 1 := by
  have h : simDays c2Scenario = 1 := by
    unfold simDays c2Scenario jsRound
    norm_num
  rw [h]
  rfl

/-- The one-day forecast over c2Revenue evaluates to demoForecast2. -/
theorem predictDemand_c2 : predictDemand c2Revenue [] 273 1 = Except.ok demoForecast2 := by
  rw [predictDemand_nil_market, show List.range 1 = [0] from rfl, List.map_cons, List.map_nil]
  simp [avg_c2, adr_c2, demoForecast2]

/-- Simulating the 70-occupancy 150-ADR baseline day under c2Scenario:
occupancyChange evaluates to -5, so the simulated occupancy is clamped
to 0 and the simulated RevPAR is 0, while the simulated ADR is 165. -/
theorem simday_c2 : simulateDay c2Scenario
    { date := 273, predictedOccupancy := 70, predictedADR := 150, predictedRevPAR := 105,
      factors := { weekendFactor := 1, seasonalityFactor := 9/10, eventsImpact := 1 } } =
    { date := 273,
      baseline := { occupancy := 70, adr := 150, revPAR := 105 },
      simulated := { occupancy := some 0, adr := 165, revPAR := some 0 },
      change := { occupancy := some (-70), adr := 15, revPAR := some (-105) } } := by
  unfold simulateDay occupancyChange marketingImpact c2Scenario
  simp only [Option.map_some']
  have hmi : min (1/10 : ℚ) (0 / 1000 * (2/100)) = 0 := by norm_num
  rw [hmi]
  have hoc : (10:ℚ) * (-(1/2)) + 0 + 0 * (3/10) = -5 := by norm_num
  rw [hoc]
  have hocc : min (100:ℚ) (max 0 (70 * (1 + (-5)))) = 0 := by
    rw [show (70:ℚ) * (1 + (-5)) = -280 by norm_num]
    rw [max_eq_left (by norm_num : (-280:ℚ) ≤ 0), min_eq_right (by norm_num : (0:ℚ) ≤ 100)]
  rw [hocc]
  norm_num

/-! Claim theorems. -/

/-- C1: evaluation of predictDemand at a day whose matching market record
holds exactly one high-impact event.  Contrary to the claim, no prediction
is produced for that day: the loop body assigns to the const binding
eventsImpact, so the call throws a TypeError instead of computing
eventsImpact = 1.2. -/
theorem c1_event_day_throws :
    predictDemand [] c1Market 273 1 =
      Except.error "TypeError: Assignment to constant variable." := by
  rfl

/-- C2: evaluation of runSimulation on end-to-end scenario 3 (priceChange
10, marketingSpend 0, competitorPriceChange 0, baseline day with
predictedOccupancy 70 and predictedADR 150).  The code applies
occupancyChange = -5 (percent points) as if it were a fraction, so the
simulated day comes out with occupancy 0, ADR 165 and RevPAR 0 instead of
the claimed 66.5, 165 and 109.725. -/
theorem c2_simulation_day_values :
    (runSimulation c2Revenue [] c2Scenario).map (fun r =>
      r.dailyResults.map (fun d =>
        (d.baseline.occupancy, d.baseline.adr,
         d.simulated.occupancy, d.simulated.adr, d.simulated.revPAR))) =
      Except.ok [(70, 150, some 0, 165, some 0)] := by
  have hpd : predictDemand c2Revenue [] c2Scenario.startDate (simDays c2Scenario).toNat =
      Except.ok demoForecast2 := by
    rw [show c2Scenario.startDate = (273:ℤ) from rfl, simdays_c2]
    exact predictDemand_c2
  unfold runSimulation
  rw [hpd]
  dsimp only [demoForecast2]
  rw [p273]
  dsimp only [Except.map, List.map_cons, List.map_nil]
  rw [simday_c2]

/-- C3: calculateKPIs on an empty record set returns the explicit all-zero
structure, field for field, of the same shape as the non-empty result. -/
theorem c3_empty_kpis_all_zero :
    calculateKPIs [] =
      { totalRevenue := 0, averageOccupancy := 0, averageADR := 0, averageRevPAR := 0,
        revenueBreakdown :=
          { room := 0, foodBeverage := 0, spa := 0, retail := 0, other := 0 } } := by
  rfl

/-- C4: for every input record set, target date and horizon, every
prediction of a successful predictDemand call has its predictedOccupancy
clamped into [0, 100]. -/
theorem c4_occupancy_clamped (rev : List RevenueRecord) (mkt : List MarketRecord)
    (t : ℤ) (n : ℕ) (f : DemandForecast)
    (h : predictDemand rev mkt t n = Except.ok f) :
    ∀ p ∈ f.predictions, 0 ≤ p.predictedOccupancy ∧ p.predictedOccupancy ≤ 100 := by
  intro p hp
  rw [predictDemand_ok_shape h] at hp
  simp only [List.mem_map, List.mem_range] at hp
  obtain ⟨i, _, rfl⟩ := hp
  exact predictOne_occupancy_bounds _ _ _

/-- C4 witness: the single prediction of the one-day no-data forecast
satisfies the clamp bounds. -/
theorem c4_witness :
    0 ≤ (predictOne 0 100 273).predictedOccupancy ∧
    (predictOne 0 100 273).predictedOccupancy ≤ 100 :=
  c4_occupancy_clamped [] [] 273 1 demoForecast rfl
    (predictOne 0 100 273) (by simp [demoForecast])

/-- C5: every prediction of a successful predictDemand call satisfies
predictedRevPAR = predictedOccupancy * predictedADR / 100 exactly. -/
theorem c5_revpar_identity (rev : List RevenueRecord) (mkt : List MarketRecord)
    (t : ℤ) (n : ℕ) (f : DemandForecast)
    (h : predictDemand rev mkt t n = Except.ok f) :
    ∀ p ∈ f.predictions,
      p.predictedRevPAR = p.predictedOccupancy * p.predictedADR / 100 := by
  intro p hp
  rw [predictDemand_ok_shape h] at hp
  simp only [List.mem_map, List.mem_range] at hp
  obtain ⟨i, _, rfl⟩ := hp
  rfl

/-- C5 witness: the baseline day built from c2Revenue (occupancy 70,
ADR 150) satisfies the RevPAR identity. -/
theorem c5_witness :
    (predictOne (700/9) (5000/33) 273).predictedRevPAR =
      (predictOne (700/9) (5000/33) 273).predictedOccupancy *
        (predictOne (700/9) (5000/33) 273).predictedADR / 100 :=
  c5_revpar_identity c2Revenue [] 273 1 demoForecast2 predictDemand_c2
    (predictOne (700/9) (5000/33) 273) (by simp [demoForecast2])

/-- C6: for every forecast, the recommendations list pairs each prediction
day with the four fixed room types Standard/Deluxe/Suite/Executive Suite
(base prices 100/150/250/350, type factors 1/1.1/1.2/1.3), each priced
recommendedPrice = round(basePrice * demandFactor * typeFactor *
seasonalityFactor-of-that-day) with demandFactor 1.4 above 80 percent
occupancy, 1.2 above 60, 1.0 above 40, else 0.9, and
expectedRevenue = recommendedPrice * predictedOccupancy / 100. -/
theorem c6_pricing_formulas (f : DemandForecast) :
    (recommendPricing f).recommendations.map (fun dr =>
      (dr.date, dr.occupancyForecast,
        dr.roomTypes.map (fun rr => (rr.roomType, rr.recommendedPrice, rr.expectedRevenue)))) =
    f.predictions.map (fun p =>
      (p.date, p.predictedOccupancy,
        let df : ℚ := if p.predictedOccupancy > 80 then 14/10
          else if p.predictedOccupancy > 60 then 12/10
          else if p.predictedOccupancy > 40 then 1
          else 9/10
        let sf := p.factors.seasonalityFactor
        [("Standard", jsRound (100 * df * 1 * sf),
            ((jsRound (100 * df * 1 * sf) : ℤ) : ℚ) * (p.predictedOccupancy / 100)),
         ("Deluxe", jsRound (150 * df * (11/10) * sf),
            ((jsRound (150 * df * (11/10) * sf) : ℤ) : ℚ) * (p.predictedOccupancy / 100)),
         ("Suite", jsRound (250 * df * (12/10) * sf),
            ((jsRound (250 * df * (12/10) * sf) : ℤ) : ℚ) * (p.predictedOccupancy / 100)),
         ("Executive Suite", jsRound (350 * df * (13/10) * sf),
            ((jsRound (350 * df * (13/10) * sf) : ℤ) : ℚ) * (p.predictedOccupancy / 100))])) := by
  unfold recommendPricing
  dsimp only
  rw [List.map_map]
  rfl

/-- C7: every generated room recommendation has priceRange.min =
round(recommendedPrice * 0.9), priceRange.max = round(recommendedPrice *
1.1), and min ≤ recommendedPrice ≤ max. -/
theorem c7_price_range (rev : List RevenueRecord) (mkt : List MarketRecord)
    (t : ℤ) (n : ℕ) (f : DemandForecast)
    (h : predictDemand rev mkt t n = Except.ok f) :
    ∀ dr ∈ (recommendPricing f).recommendations, ∀ rr ∈ dr.roomTypes,
      rr.priceRange.min = jsRound ((rr.recommendedPrice : ℚ) * (9/10)) ∧
      rr.priceRange.max = jsRound ((rr.recommendedPrice : ℚ) * (11/10)) ∧
      rr.priceRange.min ≤ rr.recommendedPrice ∧
      rr.recommendedPrice ≤ rr.priceRange.max := by
  intro dr hdr rr hrr
  unfold recommendPricing at hdr
  dsimp only at hdr
  simp only [List.mem_map] at hdr
  obtain ⟨p, hp, rfl⟩ := hdr
  dsimp only at hrr
  simp only [List.mem_map] at hrr
  obtain ⟨rt, hrt, rfl⟩ := hrr
  rw [predictDemand_ok_shape h] at hp
  simp only [List.mem_map, List.mem_range] at hp
  obtain ⟨i, _, rfl⟩ := hp
  have hb : 0 ≤ rt.basePrice := by
    fin_cases hrt <;> norm_num
  have hsf : 0 ≤ (predictOne (avgOccupancy rev) (baseADR rev)
      (t + (i : ℤ))).factors.seasonalityFactor := (seasonalityFactor_pos _).le
  exact recommendRoom_bounds _ _ hb hsf

/-- C7 witness: the Standard-room recommendation for the one-day no-data
forecast satisfies the price-range equations and bounds. -/
theorem c7_witness :
    demoRoomRec.priceRange.min = jsRound ((demoRoomRec.recommendedPrice : ℚ) * (9/10)) ∧
    demoRoomRec.priceRange.max = jsRound ((demoRoomRec.recommendedPrice : ℚ) * (11/10)) ∧
    demoRoomRec.priceRange.min ≤ demoRoomRec.recommendedPrice ∧
    demoRoomRec.recommendedPrice ≤ demoRoomRec.priceRange.max :=
  c7_price_range [] [] 273 1 demoForecast rfl demoDaily (List.mem_cons_self _ _)
    demoRoomRec (List.mem_cons_self _ _)

/-- C9: a successful predictDemand call with horizon at least 1 returns
exactly daysAhead predictions, dated targetDate, targetDate + 1, ... in
ascending order (one per consecutive calendar day). -/
theorem c9_one_prediction_per_day (rev : List RevenueRecord) (mkt : List MarketRecord)
    (t : ℤ) (n : ℕ) (f : DemandForecast)
    (h1 : 1 ≤ n) (h : predictDemand rev mkt t n = Except.ok f) :
    f.predictions.length = n ∧
    f.predictions.map (fun p => p.date) = (List.range n).map (fun i : ℕ => t + (i : ℤ)) := by
  rw [predictDemand_ok_shape h]
  constructor
  · simp
  · dsimp only
    rw [List.map_map]
    rfl

/-- C9 witness: the one-day no-data forecast has exactly one prediction,
dated day 273. -/
theorem c9_witness :
    demoForecast.predictions.length = 1 ∧
    demoForecast.predictions.map (fun p => p.date) =
      (List.range 1).map (fun i : ℕ => 273 + (i : ℤ)) :=
  c9_one_prediction_per_day [] [] 273 1 demoForecast (by norm_num) rfl

/-- With an empty market-record list runSimulation cannot throw. -/
theorem runSimulation_nil_market_ne_error (rev : List RevenueRecord) (sc : Scenario) :
    ∀ e, runSimulation rev [] sc ≠ Except.error e := by
  intro e hc
  unfold runSimulation at hc
  rw [predictDemand_nil_market] at hc
  exact absurd hc (by simp)

/-- demoSimResult10 is the successful result of its runSimulation call. -/
theorem runSim_demo10 : runSimulation [] [] demoScenario10 = Except.ok demoSimResult10 := by
  cases hr : runSimulation [] [] demoScenario10 with
  | error e => exact absurd hr (runSimulation_nil_market_ne_error [] demoScenario10 e)
  | ok r =>
    unfold demoSimResult10
    rw [hr]

/-- C10: a successful runSimulation call produces exactly
round((endDate - startDate) / 86400000) daily entries, dated startDate,
startDate + 1, ..., so the endDate itself is excluded; in particular an
endDate one day after startDate gives a single entry dated startDate. -/
theorem c10_simulated_day_count (rev : List RevenueRecord) (mkt : List MarketRecord)
    (sc : Scenario) (r : SimulationResult)
    (h : runSimulation rev mkt sc = Except.ok r) :
    r.dailyResults.length = (simDays sc).toNat ∧
    r.dailyResults.map (fun d => d.date) =
      (List.range (simDays sc).toNat).map (fun i : ℕ => sc.startDate + (i : ℤ)) := by
  unfold runSimulation at h
  cases hpd : predictDemand rev mkt sc.startDate (simDays sc).toNat with
  | error e => rw [hpd] at h; exact absurd h (by simp)
  | ok bf =>
    rw [hpd] at h
    injection h with h
    subst h
    have hbf := predictDemand_ok_shape hpd
    subst hbf
    dsimp only
    constructor
    · simp
    · rw [List.map_map, List.map_map]
      rfl

/-- C10 witness: demoScenario10 has endDate = startDate + 1 day, and its
simulation has exactly (simDays demoScenario10).toNat = 1 daily entry,
dated demoScenario10.startDate. -/
theorem c10_witness :
    demoSimResult10.dailyResults.length = (simDays demoScenario10).toNat ∧
    demoSimResult10.dailyResults.map (fun d => d.date) =
      (List.range (simDays demoScenario10).toNat).map
        (fun i : ℕ => demoScenario10.startDate + (i : ℤ)) :=
  c10_simulated_day_count [] [] demoScenario10 demoSimResult10 runSim_demo10

/-- C8: in every successful simulation, summary.roi is null (none) when
marketingSpend is omitted or 0, and when marketingSpend = m > 0 it equals
(totalRevPARChange / m) * 100, a genuine (finite) rational. -/
theorem c8_roi_rule (rev : List RevenueRecord) (mkt : List MarketRecord)
    (sc : Scenario) (r : SimulationResult)
    (h : runSimulation rev mkt sc = Except.ok r) :
    ((sc.marketingSpend = none ∨ sc.marketingSpend = some 0) → r.summary.roi = none) ∧
    (∀ m : ℚ, sc.marketingSpend = some m → 0 < m →
      ∃ t : ℚ, r.summary.totalRevPARChange = some t ∧
        r.summary.roi = some (t / m * 100)) := by
  unfold runSimulation at h
  cases hpd : predictDemand rev mkt sc.startDate (simDays sc).toNat with
  | error e => rw [hpd] at h; exact absurd h (by simp)
  | ok bf =>
    rw [hpd] at h
    injection h with h
    subst h
    dsimp only
    constructor
    · rintro (hms | hms)
      · rw [hms]
      · rw [hms]
        dsimp only
        rw [if_neg (by norm_num : ¬ ((0:ℚ) > 0))]
    · intro m hm hmpos
      rw [hm]
      dsimp only
      rw [if_pos (by exact hmpos : (0:ℚ) < m)]
      obtain ⟨s, hs⟩ := foldl_optAdd_some
        ((bf.predictions.map (simulateDay sc)).map (fun d => d.simulated.revPAR))
        (by
          intro x hx
          simp only [List.mem_map] at hx
          obtain ⟨d, ⟨p, hp, rfl⟩, rfl⟩ := hx
          exact simulateDay_revPAR_some hm p) 0
      rw [hs]
      simp only [Option.map_some']
      exact ⟨_, rfl, rfl⟩

/-- demoSimResult is the successful result of its runSimulation call. -/
theorem runSim_demo8 : runSimulation c2Revenue [] demoScenario = Except.ok demoSimResult := by
  cases hr : runSimulation c2Revenue [] demoScenario with
  | error e => exact absurd hr (runSimulation_nil_market_ne_error c2Revenue demoScenario e)
  | ok r =>
    unfold demoSimResult
    rw [hr]

/-- C8 witness: demoScenario spends 1000 on marketing, and the resulting
summary carries a genuine totalRevPARChange t with roi = t / 1000 * 100. -/
theorem c8_witness :
    ∃ t : ℚ, demoSimResult.summary.totalRevPARChange = some t ∧
      demoSimResult.summary.roi = some (t / 1000 * 100) :=
  (c8_roi_rule c2Revenue [] demoScenario demoSimResult runSim_demo8).2 1000 rfl (by norm_num)

end RevenuePulse
